import Mathlib

/-!
Verification of the chicachica real-time conversation hub
(`src/backend/src/sockets/chatSocket.ts` together with the service layer in
`messageService.ts`, `conversationService.ts` and `userService.ts`) against its
natural-language specification.

The durable store (PostgreSQL tables `users`, `conversations`, `messages`,
`conversation_participants` from `src/backend/src/db/init.ts`) is embedded as a
record of lists; the SQL queries of the service layer are embedded as list
functions.  The socket.io hub is embedded as explicit state passing: a
`Hub` record holds the store and the room-membership table, a `SessionState`
record holds a connection's mutable fields (`socket.userId`, `socket.user`,
`socket.currentConversation`), and each event handler is a function producing
the new state together with the list of emitted events.  Store failures are
injected through an explicit fault schedule (one Boolean per store call made by
the handler, `true` meaning that call throws).
-/

namespace ChicaChica

/-- Row of the `users` table (`src/backend/src/db/init.ts`): id, display_name,
email (nullable unique), status enum. `created_at`/`last_seen` timestamps are
not consumed by any verified property and are omitted. -/
structure UserRec where
  id : Nat
  displayName : String
  email : Option String
  status : String
  deriving Repr, DecidableEq

/-- Row of the `messages` table: id, conversation_id, author_id, content,
timestamp, edited_at (nullable), is_deleted (soft-delete flag), created_at. -/
structure MessageRec where
  id : Nat
  conversationId : Nat
  authorId : Nat
  content : String
  timestamp : Nat
  editedAt : Option Nat
  isDeleted : Bool
  createdAt : Nat
  deriving Repr, DecidableEq

/-- Row of the `conversation_participants` table: (conversation_id, user_id)
primary key, last_read_message_id (nullable, FK to messages.id), is_admin.
`joined_at` defaults to insertion time, so the insertion order of the
participant list below realises the `ORDER BY cp.joined_at` of the queries. -/
structure ParticipantRec where
  conversationId : Nat
  userId : Nat
  lastReadMessageId : Option Nat
  isAdmin : Bool
  deriving Repr, DecidableEq

/-- The durable store: the four tables, plus the id/timestamp generators the
database supplies (`gen_random_uuid()`, `CURRENT_TIMESTAMP`).  Conversations
carry no hub-relevant attributes, so the table is kept as its id column. -/
structure Store where
  users : List UserRec
  conversations : List Nat
  messages : List MessageRec
  participants : List ParticipantRec
  nextMessageId : Nat
  clock : Nat
  deriving Repr, DecidableEq

/-- `SELECT * FROM users WHERE id = ...` (`UserService.getUserById`). -/
def findUser (s : Store) (uid : Nat) : Option UserRec :=
  s.users.find? (fun u => u.id == uid)

/-- Lookup of a message row by primary key. -/
def findMessage (s : Store) (mid : Nat) : Option MessageRec :=
  s.messages.find? (fun m => m.id == mid)

/-- `ConversationService.isUserInConversation`: `SELECT EXISTS(SELECT 1 FROM
conversation_participants WHERE conversation_id = ... AND user_id = ...)`. -/
def isUserInConversation (s : Store) (convId uid : Nat) : Bool :=
  s.participants.any (fun p => p.conversationId == convId && p.userId == uid)

/-- `UserService.updateUserStatus`: `UPDATE users SET status = ... WHERE
id = ...` (the `last_seen = CURRENT_TIMESTAMP` column is not modelled). -/
def updateUserStatus (s : Store) (uid : Nat) (status : String) : Store :=
  { s with users := s.users.map (fun u => if u.id == uid then { u with status := status } else u) }

/-- The status column of a user, if the user exists. -/
def userStatus (s : Store) (uid : Nat) : Option String :=
  (findUser s uid).map (fun u => u.status)

/-- The `CASE WHEN` condition of `ConversationService.getUnreadCountForConversation`
combined with the `LEFT JOIN` condition: message in the participant's
conversation, not soft-deleted, not authored by the participant, and newer than
the message referenced by `last_read_message_id` (all messages when the pointer
is NULL; when the referenced row does not exist the SQL comparison with NULL is
not satisfied). -/
def unreadCond (s : Store) (p : ParticipantRec) (m : MessageRec) : Bool :=
  m.conversationId == p.conversationId && m.isDeleted == false &&
  m.authorId != p.userId &&
  (match p.lastReadMessageId with
   | none => true
   | some pid =>
     match findMessage s pid with
     | some pm => pm.timestamp < m.timestamp
     | none => false)

/-- The per-participant `COUNT(CASE WHEN ... THEN 1 END)` of
`getUnreadCountForConversation`. -/
def unreadCountFor (s : Store) (p : ParticipantRec) : Nat :=
  (s.messages.filter (unreadCond s p)).length

/-- `ConversationService.getUnreadCountForConversation`: early return `{}` on an
empty user list; one row per participant of the conversation among the
requested users, grouped by user; then every requested user missing from the
result is filled in with 0. -/
def getUnreadCountForConversation (s : Store) (convId : Nat) (userIds : List Nat) :
    List (Nat × Nat) :=
  if userIds.isEmpty then []
  else
    let rows := s.participants.filter
      (fun p => p.conversationId == convId && userIds.contains p.userId)
    let base := rows.map (fun p => (p.userId, unreadCountFor s p))
    base ++ (userIds.filter (fun u => !(base.any (fun kv => kv.fst == u)))).map (fun u => (u, 0))

/-- Reading the map built by `getUnreadCountForConversation` the way the hub
does: `unreadCounts[participantId] || 0`. -/
def lookupCount (m : List (Nat × Nat)) (u : Nat) : Nat :=
  match m.find? (fun kv => kv.fst == u) with
  | some kv => kv.snd
  | none => 0

/-- `ConversationService.getParticipantsForConversation`: participant rows of
the conversation joined (inner) with `users`, in `joined_at` order.  The hub
only consumes the `user_id` column of the result. -/
def getParticipantsForConversation (s : Store) (convId : Nat) : List ParticipantRec :=
  s.participants.filter (fun p => p.conversationId == convId && (findUser s p.userId).isSome)

/-- The row-level effect of the `UPDATE conversation_participants SET
last_read_message_id = messageId WHERE conversation_id = ... AND user_id = ...`
of `ConversationService.updateLastReadMessage`. -/
def setLastRead (convId uid mid : Nat) (p : ParticipantRec) : ParticipantRec :=
  if p.conversationId == convId && p.userId == uid then
    { p with lastReadMessageId := some mid }
  else p

/-- `ConversationService.updateLastReadMessage` (the service variant present in
src): an unconditional overwrite of the pointer with no monotonicity and no
same-conversation check; returns whether a row matched.  When a row matches and
the message id does not exist, the `REFERENCES messages(id)` foreign key of the
schema raises, surfaced as a `DatabaseError`. -/
def updateLastReadMessage (s : Store) (convId uid mid : Nat) :
    Except String (Store × Bool) :=
  let matched := s.participants.any (fun p => p.conversationId == convId && p.userId == uid)
  if matched && (findMessage s mid).isNone then
    Except.error "ForeignKeyConstraintError"
  else
    Except.ok
      ({ s with participants := s.participants.map (setLastRead convId uid mid) }, matched)

/-- `MessageService.createMessage`: `INSERT INTO messages (conversation_id,
author_id, content) VALUES (...) RETURNING *`; id and timestamps are assigned
by the database; the foreign keys require the conversation and the author to
exist. No constraint restricts `content` (the column is `TEXT NOT NULL`). -/
def createMessage (s : Store) (convId authorId : Nat) (content : String) :
    Except String (Store × MessageRec) :=
  if s.conversations.contains convId && (findUser s authorId).isSome then
    let m : MessageRec :=
      { id := s.nextMessageId, conversationId := convId, authorId := authorId,
        content := content, timestamp := s.clock, editedAt := none,
        isDeleted := false, createdAt := s.clock }
    Except.ok
      ({ s with
          messages := s.messages ++ [m],
          nextMessageId := s.nextMessageId + 1,
          clock := s.clock + 1 }, m)
  else Except.error "ForeignKeyConstraintError"

/-- A message row joined with its author's columns, as produced by the
`JOIN users u ON m.author_id = u.id` of `MessageService.getMessagesForConversation`
and `getMessageById` (`display_name as author_name`, `email as author_email`,
`status as author_status`). -/
structure MessageWithAuthor extends MessageRec where
  authorName : String
  authorEmail : Option String
  authorStatus : String
  deriving Repr, DecidableEq

/-- Join one message row with its author, dropping it (inner join) when the
author row is missing. -/
def joinAuthor (s : Store) (m : MessageRec) : Option MessageWithAuthor :=
  (findUser s m.authorId).map (fun u =>
    { toMessageRec := m, authorName := u.displayName,
      authorEmail := u.email, authorStatus := u.status })

/-- Insertion into a timestamp-descending list (`ORDER BY m.timestamp DESC`). -/
def insertByTimestampDesc (m : MessageWithAuthor) :
    List MessageWithAuthor → List MessageWithAuthor
  | [] => [m]
  | x :: xs =>
    if x.timestamp ≤ m.timestamp then m :: x :: xs
    else x :: insertByTimestampDesc m xs

/-- Sort message rows newest-first. -/
def sortByTimestampDesc (l : List MessageWithAuthor) : List MessageWithAuthor :=
  l.foldr insertByTimestampDesc []

/-- `MessageService.getMessagesForConversation`: non-deleted messages of the
conversation joined with authors, newest-first, `LIMIT limit`, then reversed to
chronological order by the outer `ORDER BY timestamp ASC`.  The hub calls it
without arguments, i.e. with the default limit 50. -/
def getMessagesForConversation (s : Store) (convId : Nat) (limit : Nat) :
    List MessageWithAuthor :=
  let rows := (s.messages.filter
    (fun m => m.conversationId == convId && m.isDeleted == false)).filterMap (joinAuthor s)
  ((sortByTimestampDesc rows).take limit).reverse

/-- `MessageService.getMessageById`: one message row joined with its author. -/
def getMessageById (s : Store) (mid : Nat) : Option MessageWithAuthor :=
  (findMessage s mid).bind (joinAuthor s)

/-- Modelled from the spec: `ConversationService.getLastReadMessage`, called by
`chatSocket.ts` on `join_conversation` but absent from src (only the
terminal-backend variant of the service is present).  Per the spec, the join
reply carries "the caller's current last-read message (if any)", i.e. the
message referenced by the caller's `last_read_message_id` for that
conversation, resolved with its author. -/
def getLastReadMessage (s : Store) (uid convId : Nat) : Option MessageWithAuthor :=
  (s.participants.find? (fun p => p.conversationId == convId && p.userId == uid)).bind
    (fun p => p.lastReadMessageId.bind (fun pid => getMessageById s pid))

/-- Modelled from the spec: the chat backend's `ConversationService.updateLastReadMessage`
variant used by `chatSocket.ts`, absent from src (the terminal-backend variant
in src returns only a Boolean).  Per the spec interface it returns the
"updated Message | bool": the pointer write has the semantics of the variant in
src (unconditional overwrite), and on success the updated message is resolved
with its author for the `message_read_updated` reply. -/
def updateLastReadMessageResolved (s : Store) (convId uid mid : Nat) :
    Except String (Store × Option MessageWithAuthor) :=
  match updateLastReadMessage s convId uid mid with
  | Except.error e => Except.error e
  | Except.ok (s', matched) =>
    Except.ok (s', if matched then getMessageById s' mid else none)

/-! ### Wire payloads

`chatSocket.ts` declares `type MessagePayload = {id, timestamp, content,
author: {id, displayName}}` and builds such objects explicitly for
`new_message`, `message_read_updated`, `conversation_meta_updated` and the
`lastReadMessage` of `conversation_history`.  The `messages` array of
`conversation_history`, however, is built by spreading the full database row
(`({author_id, author_name, ...message}) => ({...message, author: ...})`), so
those objects keep every other column of the row. -/

/-- The `author: {id, displayName}` sub-object. -/
structure AuthorPayload where
  id : Nat
  displayName : String
  deriving Repr, DecidableEq

/-- The declared `MessagePayload` wire shape: exactly id, timestamp, content,
author. -/
structure MessagePayload where
  id : Nat
  timestamp : Nat
  content : String
  author : AuthorPayload
  deriving Repr, DecidableEq

/-- A message object of the `conversation_history.messages` array: the spread
of the `MessageWithAuthor` row minus the destructured `author_id` and
`author_name`, plus the `author` object. -/
structure HistoryMessagePayload where
  id : Nat
  conversationId : Nat
  content : String
  timestamp : Nat
  editedAt : Option Nat
  isDeleted : Bool
  createdAt : Nat
  authorEmail : Option String
  authorStatus : String
  author : AuthorPayload
  deriving Repr, DecidableEq

/-- The JavaScript object keys of a `MessagePayload` literal, in insertion
order. -/
def wireMessageJsKeys : List String :=
  ["id", "timestamp", "content", "author"]

/-- The JavaScript object keys of a `conversation_history` message object: the
row columns in SELECT order (`m.*` then the author aliases) minus the
destructured `author_id`/`author_name`, with `author` appended by the literal. -/
def historyMessageJsKeys : List String :=
  ["id", "conversation_id", "content", "timestamp", "edited_at", "is_deleted",
   "created_at", "author_email", "author_status", "author"]

/-- The formatter of the `conversation_history.messages` array in
`join_conversation`: strip `author_id`/`author_name`, spread the rest, add
`author`. -/
def formatHistoryMessage (m : MessageWithAuthor) : HistoryMessagePayload :=
  { id := m.id, conversationId := m.conversationId, content := m.content,
    timestamp := m.timestamp, editedAt := m.editedAt, isDeleted := m.isDeleted,
    createdAt := m.createdAt, authorEmail := m.authorEmail,
    authorStatus := m.authorStatus,
    author := { id := m.authorId, displayName := m.authorName } }

/-- The explicit `MessagePayload` built from a resolved message row in
`join_conversation` (for `lastReadMessage`) and in `message_read`: note the
wire `timestamp` is the row's `created_at`. -/
def formatResolvedMessage (m : MessageWithAuthor) : MessagePayload :=
  { id := m.id, content := m.content, timestamp := m.createdAt,
    author := { id := m.authorId, displayName := m.authorName } }

/-- Every payload the hub emits (the event name is carried by the
constructor). -/
inductive EventPayload where
  | authenticated (success : Bool) (userId : Nat)
  | userJoinedConversation (userId : Nat) (userName : String) (conversationId : Nat)
  | conversationHistory (conversationId : Nat) (messages : List HistoryMessagePayload)
      (lastReadMessage : Option MessagePayload)
  | newMessage (conversationId : Nat) (message : MessagePayload)
  | conversationMetaUpdated (conversationId : Nat) (lastMessage : MessagePayload)
      (unreadCount : Nat)
  | userTyping (conversationId : Nat) (userId : Nat) (userName : String) (isTyping : Bool)
  | messageReadUpdated (lastReadMessage : MessagePayload)
  | userReadMessage (conversationId : Nat) (messageId : Nat) (userId : Nat)
  | userLeftConversation (userId : Nat) (conversationId : Nat)
  | errorMsg (message : String)
  deriving Repr, DecidableEq

/-- A socket.io room name.  The code builds three kinds of name strings:
`"conversation:" + conversationId` (joined by `join_conversation`, left by
`leave_conversation`), `"user:" + userId` (the notification room), and — only
in the implicit-leave line of `join_conversation` — the bare conversation id
string (`socket.leave(socket.currentConversation)`).  The ids are UUID strings
that never contain a colon, so names of different kinds, and names of the same
kind with different ids, are always distinct strings; the inductive therefore
embeds the string namespace faithfully. -/
inductive Room where
  | conversation (convId : Nat)
  | user (userId : Nat)
  | bare (convId : Nat)
  deriving Repr, DecidableEq

/-- Emission target: `socket.emit` (the initiating connection only),
`socket.to(room).emit` (every member of the room except the initiating
connection), `io.to(room).emit` (every member of the room). -/
inductive Target where
  | caller
  | othersInRoom (room : Room)
  | allInRoom (room : Room)
  deriving Repr, DecidableEq

/-- One `emit` call. -/
structure Emit where
  target : Target
  payload : EventPayload
  deriving Repr, DecidableEq

/-- `true` for targets that can deliver to a connection other than the
initiating one. -/
def Emit.isBroadcast (e : Emit) : Bool :=
  match e.target with
  | Target.caller => false
  | Target.othersInRoom _ => true
  | Target.allInRoom _ => true

/-! ### Rooms and sessions -/

/-- The room name string `"conversation:" + convId`. -/
def conversationRoom (convId : Nat) : Room :=
  Room.conversation convId

/-- The room name string `"user:" + userId`. -/
def userRoom (uid : Nat) : Room :=
  Room.user uid

/-- The socket.io room-membership table: (room name, connection id) pairs. -/
def joinRoom (rooms : List (Room × Nat)) (room : Room) (cid : Nat) :
    List (Room × Nat) :=
  if rooms.contains (room, cid) then rooms else (room, cid) :: rooms

/-- `socket.leave(room)`: idempotent removal. -/
def leaveRoom (rooms : List (Room × Nat)) (room : Room) (cid : Nat) :
    List (Room × Nat) :=
  rooms.filter (fun rc => !(rc.fst == room && rc.snd == cid))

/-- Whether a connection is a member of a room. -/
def inRoom (rooms : List (Room × Nat)) (room : Room) (cid : Nat) : Bool :=
  rooms.contains (room, cid)

/-- The hub's shared state: the durable store and the broadcast-group table. -/
structure Hub where
  store : Store
  rooms : List (Room × Nat)
  deriving Repr, DecidableEq

/-- The per-connection state attached to the socket by the middleware and the
handlers: `socket.userId`, the `display_name` snapshot of `socket.user`, and
`socket.currentConversation`. -/
structure SessionState where
  connId : Nat
  userId : Nat
  displayName : String
  currentConversation : Option Nat
  deriving Repr, DecidableEq

/-- Result of running one event handler: the new shared state, the new session
state, the events emitted before the handler returned or threw, and whether an
exception escaped the handler (an unhandled promise rejection — only possible
for handlers without a `try/catch`). -/
structure HandlerResult where
  hub : Hub
  sess : SessionState
  emits : List Emit
  unhandled : Bool
  deriving Repr, DecidableEq

/-- Pop the fate of the next store call from the fault schedule (an exhausted
schedule means no failure). -/
def takeFault (sched : List Bool) : Bool × List Bool :=
  match sched with
  | [] => (false, [])
  | b :: r => (b, r)

/-! ### Event handlers of `chatSocket.ts` -/

/-- The `join_conversation` handler.  Store calls in order:
`isUserInConversation` (via `validateConversationMembership`),
`getMessagesForConversation`, `getLastReadMessage`.  All failures are caught
and surfaced as `error` to the caller.  Note the implicit-leave step executes
`socket.leave(socket.currentConversation)` — the bare conversation id, not the
`conversation:`-prefixed room name that was joined. -/
def joinConversationHandler (hub : Hub) (sess : SessionState) (conversationId : Nat)
    (sched : List Bool) : HandlerResult :=
  let errRes := fun (h : Hub) (s : SessionState) (es : List Emit) =>
    { hub := h, sess := s,
      emits := es ++ [⟨Target.caller, EventPayload.errorMsg "Failed to join conversation"⟩],
      unhandled := false : HandlerResult }
  let (f1, s1) := takeFault sched
  if f1 then errRes hub sess []
  else if !(isUserInConversation hub.store conversationId sess.userId) then
    errRes hub sess []
  else
    let rooms1 :=
      match sess.currentConversation with
      | some old => leaveRoom hub.rooms (Room.bare old) sess.connId
      | none => hub.rooms
    let sess1 := { sess with currentConversation := some conversationId }
    let rooms2 := joinRoom rooms1 (conversationRoom conversationId) sess.connId
    let hub1 := { hub with rooms := rooms2 }
    let e1 : Emit :=
      ⟨Target.othersInRoom (conversationRoom conversationId),
        EventPayload.userJoinedConversation sess.userId sess.displayName conversationId⟩
    let (f2, s2) := takeFault s1
    if f2 then errRes hub1 sess1 [e1]
    else
      let formatted := (getMessagesForConversation hub.store conversationId 50).map
        formatHistoryMessage
      let (f3, _) := takeFault s2
      if f3 then errRes hub1 sess1 [e1]
      else
        let lastRead := getLastReadMessage hub.store sess.userId conversationId
        let e2 : Emit :=
          ⟨Target.caller,
            EventPayload.conversationHistory conversationId formatted
              (lastRead.map formatResolvedMessage)⟩
        { hub := hub1, sess := sess1, emits := [e1, e2], unhandled := false }

/-- The `send_message` handler.  Store calls in order: `isUserInConversation`,
`createMessage`, `getParticipantsForConversation`,
`getUnreadCountForConversation`.  `new_message` is broadcast to the whole
conversation room right after `createMessage` succeeds; the per-participant
`conversation_meta_updated` pushes go to each participant's user room, with the
sender's own count forced to 0. -/
def sendMessageHandler (hub : Hub) (sess : SessionState) (conversationId : Nat)
    (inputContent : String) (sched : List Bool) : HandlerResult :=
  let errRes := fun (h : Hub) (es : List Emit) =>
    { hub := h, sess := sess,
      emits := es ++ [⟨Target.caller, EventPayload.errorMsg "Failed to send message"⟩],
      unhandled := false : HandlerResult }
  let (f1, s1) := takeFault sched
  if f1 then errRes hub []
  else if !(isUserInConversation hub.store conversationId sess.userId) then
    errRes hub []
  else
    let (f2, s2) := takeFault s1
    if f2 then errRes hub []
    else
      match createMessage hub.store conversationId sess.userId inputContent with
      | Except.error _ => errRes hub []
      | Except.ok (store1, m) =>
        let fm : MessagePayload :=
          { id := m.id, timestamp := m.createdAt, content := m.content,
            author := { id := sess.userId, displayName := sess.displayName } }
        let e1 : Emit :=
          ⟨Target.allInRoom (conversationRoom conversationId),
            EventPayload.newMessage conversationId fm⟩
        let hub1 := { hub with store := store1 }
        let (f3, s3) := takeFault s2
        if f3 then errRes hub1 [e1]
        else
          let participantIds :=
            (getParticipantsForConversation store1 conversationId).map (fun p => p.userId)
          let (f4, _) := takeFault s3
          if f4 then errRes hub1 [e1]
          else
            let unreadCounts := getUnreadCountForConversation store1 conversationId participantIds
            let metas := participantIds.map (fun pid =>
              (⟨Target.allInRoom (userRoom pid),
                EventPayload.conversationMetaUpdated conversationId fm
                  (if pid == sess.userId then 0 else lookupCount unreadCounts pid)⟩ : Emit))
            { hub := hub1, sess := sess, emits := e1 :: metas, unhandled := false }

/-- The `typing` handler: membership check, then `user_typing` to the other
room members.  Failures are caught and logged only — no `error` event. -/
def typingHandler (hub : Hub) (sess : SessionState) (conversationId : Nat)
    (isTyping : Bool) (sched : List Bool) : HandlerResult :=
  let (f1, _) := takeFault sched
  if f1 then { hub := hub, sess := sess, emits := [], unhandled := false }
  else if !(isUserInConversation hub.store conversationId sess.userId) then
    { hub := hub, sess := sess, emits := [], unhandled := false }
  else
    { hub := hub, sess := sess,
      emits := [⟨Target.othersInRoom (conversationRoom conversationId),
        EventPayload.userTyping conversationId sess.userId sess.displayName isTyping⟩],
      unhandled := false }

/-- The `message_read` handler.  Store calls in order: `isUserInConversation`,
`updateLastReadMessage` (the resolved variant).  On a truthy result it replies
`message_read_updated` to the caller, broadcasts `user_read_message` to the
other room members, and pushes `conversation_meta_updated` with count 0 to the
caller's user room.  Failures are caught and surfaced as `error`. -/
def messageReadHandler (hub : Hub) (sess : SessionState) (conversationId messageId : Nat)
    (sched : List Bool) : HandlerResult :=
  let errRes := fun (h : Hub) =>
    { hub := h, sess := sess,
      emits := [⟨Target.caller, EventPayload.errorMsg "Failed to update read status"⟩],
      unhandled := false : HandlerResult }
  let (f1, s1) := takeFault sched
  if f1 then errRes hub
  else if !(isUserInConversation hub.store conversationId sess.userId) then
    errRes hub
  else
    let (f2, _) := takeFault s1
    if f2 then errRes hub
    else
      match updateLastReadMessageResolved hub.store conversationId sess.userId messageId with
      | Except.error _ => errRes hub
      | Except.ok (store1, none) =>
        { hub := { hub with store := store1 }, sess := sess, emits := [], unhandled := false }
      | Except.ok (store1, some m) =>
        let fm := formatResolvedMessage m
        { hub := { hub with store := store1 }, sess := sess,
          emits :=
            [⟨Target.caller, EventPayload.messageReadUpdated fm⟩,
             ⟨Target.othersInRoom (conversationRoom conversationId),
               EventPayload.userReadMessage conversationId messageId sess.userId⟩,
             ⟨Target.allInRoom (userRoom sess.userId),
               EventPayload.conversationMetaUpdated conversationId fm 0⟩],
          unhandled := false }

/-- The `leave_conversation` handler: a no-op unless the id equals the
connection's active conversation; then membership check (with NO `try/catch` —
a failure escapes as an unhandled rejection), room leave with the prefixed
name, clear of the active conversation, and `user_left_conversation` to the
remaining members. -/
def leaveConversationHandler (hub : Hub) (sess : SessionState) (conversationId : Nat)
    (sched : List Bool) : HandlerResult :=
  if sess.currentConversation == some conversationId then
    let (f1, _) := takeFault sched
    if f1 then { hub := hub, sess := sess, emits := [], unhandled := true }
    else if !(isUserInConversation hub.store conversationId sess.userId) then
      { hub := hub, sess := sess, emits := [], unhandled := true }
    else
      { hub := { hub with
          rooms := leaveRoom hub.rooms (conversationRoom conversationId) sess.connId },
        sess := { sess with currentConversation := none },
        emits := [⟨Target.othersInRoom (conversationRoom conversationId),
          EventPayload.userLeftConversation sess.userId conversationId⟩],
        unhandled := false }
  else
    { hub := hub, sess := sess, emits := [], unhandled := false }

/-- The `disconnect` handler: unconditionally persists status `offline` (no
`try/catch`), then broadcasts `user_left_conversation` for the active
conversation, if any.  The transport removes the closed connection from every
room. -/
def disconnectHandler (hub : Hub) (sess : SessionState) (sched : List Bool) :
    HandlerResult :=
  let (f1, _) := takeFault sched
  if f1 then { hub := hub, sess := sess, emits := [], unhandled := true }
  else
    let store1 := updateUserStatus hub.store sess.userId "offline"
    let emits :=
      match sess.currentConversation with
      | some c => [⟨Target.othersInRoom (conversationRoom c),
          EventPayload.userLeftConversation sess.userId c⟩]
      | none => []
    { hub := { store := store1, rooms := hub.rooms.filter (fun rc => rc.snd != sess.connId) },
      sess := sess, emits := emits, unhandled := false }

/-- Result of the connection path (the `authenticateSocket` middleware plus the
`connection` callback up to the `authenticated` acknowledgment): `none` session
when the middleware refused the handshake. -/
structure ConnectResult where
  hub : Hub
  sess : Option SessionState
  emits : List Emit
  deriving Repr, DecidableEq

/-- The `authenticateSocket` middleware: the claimed user id from the handshake
must resolve via `getUserById`, else the connection is refused. -/
def authenticateSocket (s : Store) (claimedUserId : Option Nat) : Option UserRec :=
  match claimedUserId with
  | none => none
  | some uid => findUser s uid

/-- The `connection` callback of `initializeChatSocket` for an accepted
handshake: join the user's notification room, persist status `online`, emit
`authenticated` to the new connection. -/
def connectionHandler (hub : Hub) (connId : Nat) (claimedUserId : Option Nat) :
    ConnectResult :=
  match authenticateSocket hub.store claimedUserId with
  | none => { hub := hub, sess := none, emits := [] }
  | some u =>
    { hub :=
        { store := updateUserStatus hub.store u.id "online",
          rooms := joinRoom hub.rooms (userRoom u.id) connId },
      sess := some
        { connId := connId, userId := u.id, displayName := u.displayName,
          currentConversation := none },
      emits := [⟨Target.caller, EventPayload.authenticated true u.id⟩] }

/-! ### A concrete instance used by the counterexample and witness theorems -/

/-- Sample user Alice (id 10). -/
def aliceU : UserRec :=
  { id := 10, displayName := "Alice", email := none, status := "online" }

/-- Sample user Bob (id 20). -/
def bobU : UserRec :=
  { id := 20, displayName := "Bob", email := some "bob@example.com", status := "online" }

/-- Sample user Zed (id 99): registered but not a participant of any
conversation. -/
def zedU : UserRec :=
  { id := 99, displayName := "Zed", email := none, status := "offline" }

/-- Message 1 in conversation 1, authored by Bob, the oldest. -/
def msg1 : MessageRec :=
  { id := 1, conversationId := 1, authorId := 20, content := "hi",
    timestamp := 1, editedAt := none, isDeleted := false, createdAt := 1 }

/-- Message 2 in conversation 1, authored by Bob, the newest there. -/
def msg2 : MessageRec :=
  { id := 2, conversationId := 1, authorId := 20, content := "there",
    timestamp := 2, editedAt := none, isDeleted := false, createdAt := 2 }

/-- Message 5 lives in conversation 2. -/
def msg5 : MessageRec :=
  { id := 5, conversationId := 2, authorId := 20, content := "elsewhere",
    timestamp := 3, editedAt := none, isDeleted := false, createdAt := 3 }

/-- Sample store: conversations 1 and 2; Alice and Bob participate in both;
Alice's conversation-1 read pointer is at message 2 (the newest one). -/
def sampleStore : Store :=
  { users := [aliceU, bobU, zedU],
    conversations := [1, 2],
    participants :=
      [ { conversationId := 1, userId := 10, lastReadMessageId := some 2, isAdmin := true },
        { conversationId := 1, userId := 20, lastReadMessageId := none, isAdmin := false },
        { conversationId := 2, userId := 10, lastReadMessageId := none, isAdmin := false },
        { conversationId := 2, userId := 20, lastReadMessageId := none, isAdmin := true } ],
    messages := [msg1, msg2, msg5],
    nextMessageId := 6,
    clock := 10 }

/-- Sample hub state: Alice connected as connection 7, Bob as connection 8,
each in their own notification room. -/
def sampleHub : Hub :=
  { store := sampleStore, rooms := [(userRoom 10, 7), (userRoom 20, 8)] }

/-- Alice's connection 7, no active conversation. -/
def aliceSess : SessionState :=
  { connId := 7, userId := 10, displayName := "Alice", currentConversation := none }

/-- Alice's connection 7 while viewing conversation 1. -/
def aliceInConv1 : SessionState :=
  { aliceSess with currentConversation := some 1 }

/-- Zed's connection 9. -/
def zedSess : SessionState :=
  { connId := 9, userId := 99, displayName := "Zed", currentConversation := none }

/-- The read pointer a store holds for (conversation, user), when the
participant row exists. -/
def pointerOf (s : Store) (convId uid : Nat) : Option (Option Nat) :=
  (s.participants.find? (fun p => p.conversationId == convId && p.userId == uid)).map
    (fun p => p.lastReadMessageId)

/-- The `PRIMARY KEY (conversation_id, user_id)` of `conversation_participants`:
no two rows share the key.  (Boolean, so concrete stores can discharge it by
evaluation.) -/
def noDupKeys : List ParticipantRec → Bool
  | [] => true
  | p :: rest =>
    !(rest.any (fun q => q.conversationId == p.conversationId && q.userId == p.userId)) &&
      noDupKeys rest

/-- The unread count as §3 of the spec words it: "count of non-deleted messages
in that conversation with author_id ≠ user and timestamp > timestamp of the
message referenced by that participant's last_read_message_id (or all messages
if null), excluding messages authored by the user themself."  This definition
follows the spec sentence, not the SQL, and is compared against the embedded
query.  The spec presumes a set pointer references an existing message (the
schema's foreign key); the theorem relating the two carries that resolvability
as a hypothesis, under which the fallback branch below is never reached. -/
def specUnreadCount (s : Store) (convId uid : Nat) (ptr : Option Nat) : Nat :=
  match ptr with
  | none =>
    (s.messages.filter (fun m =>
      m.conversationId == convId && m.isDeleted == false && m.authorId != uid)).length
  | some pid =>
    match findMessage s pid with
    | some pm =>
      (s.messages.filter (fun m =>
        m.conversationId == convId && m.isDeleted == false && m.authorId != uid &&
        pm.timestamp < m.timestamp)).length
    | none => 0

/-! ## Closed evaluations: counterexamples and bug demonstrations -/

/-- Claim C1 (single active room) — evaluation at the failing input: Alice's
connection 7 joins conversation 1 and then conversation 2; because the
implicit-leave line executes `socket.leave(socket.currentConversation)` on the
bare conversation id instead of the `conversation:`-prefixed room name that was
joined, the connection remains a member of BOTH conversation broadcast
groups. -/
theorem c1_join_does_not_leave_old_group :
    inRoom (joinConversationHandler (joinConversationHandler sampleHub aliceSess 1 []).hub
        (joinConversationHandler sampleHub aliceSess 1 []).sess 2 []).hub.rooms
      (conversationRoom 1) 7 = true ∧
    inRoom (joinConversationHandler (joinConversationHandler sampleHub aliceSess 1 []).hub
        (joinConversationHandler sampleHub aliceSess 1 []).sess 2 []).hub.rooms
      (conversationRoom 2) 7 = true ∧
    (joinConversationHandler (joinConversationHandler sampleHub aliceSess 1 []).hub
        (joinConversationHandler sampleHub aliceSess 1 []).sess 2
        []).sess.currentConversation = some 2 := by decide

/-- Claim C2 — counterexample: Alice connects on two devices (connections 7
and 8); disconnecting connection 7 alone flips her status to "offline" even
though connection 8 is still live (still in her notification room), so the
status is not derived from the live-connection count. -/
theorem c2_counterexample :
    let c1 := connectionHandler sampleHub 7 (some 10)
    let c2 := connectionHandler c1.hub 8 (some 10)
    c1.sess = some aliceSess ∧
    inRoom (disconnectHandler c2.hub aliceSess []).hub.rooms (userRoom 10) 8 = true ∧
    userStatus (disconnectHandler c2.hub aliceSess []).hub.store 10 = some "offline" := by
  decide

/-- Claim C3 — counterexample: with conversation 1 active, a store failure in
the membership check of `leave_conversation` is NOT caught (that handler has
no try/catch): the rejection escapes and no `error` event reaches the
caller. -/
theorem c3_counterexample :
    (leaveConversationHandler sampleHub aliceInConv1 1 [true]).unhandled = true ∧
    (leaveConversationHandler sampleHub aliceInConv1 1 [true]).emits = [] := by decide

/-- Claim C4 — counterexample: Zed (user 99) is not a participant of
conversation 1, yet his `typing` event produces no error response at all (the
handler only logs), contradicting "fails with a NotAMember error response to
the caller". -/
theorem c4_counterexample :
    isUserInConversation sampleStore 1 99 = false ∧
    typingHandler sampleHub zedSess 1 true [] = ⟨sampleHub, zedSess, [], false⟩ := by
  decide

/-- Claim C6 — counterexample: Alice's conversation-1 pointer stands at
message 2; `message_read` with the OLDER message 1 overwrites the pointer to
message 1 (progress reverts) and her unread count regresses from 0 to 1. -/
theorem c6_counterexample :
    pointerOf sampleStore 1 10 = some (some 2) ∧
    pointerOf (messageReadHandler sampleHub aliceSess 1 1 []).hub.store 1 10 =
      some (some 1) ∧
    lookupCount (getUnreadCountForConversation sampleStore 1 [10]) 10 = 0 ∧
    lookupCount (getUnreadCountForConversation
      (messageReadHandler sampleHub aliceSess 1 1 []).hub.store 1 [10]) 10 = 1 := by
  decide

/-- Claim C7 — counterexample: message 5 belongs to conversation 2, yet
`message_read(conversationId 1, messageId 5)` from Alice (a member of
conversation 1) stores 5 as her conversation-1 last-read pointer, breaking the
same-conversation invariant. -/
theorem c7_counterexample :
    pointerOf (messageReadHandler sampleHub aliceSess 1 5 []).hub.store 1 10 =
      some (some 5) ∧
    (findMessage (messageReadHandler sampleHub aliceSess 1 5 []).hub.store 5).map
      (fun m => m.conversationId) = some 2 ∧
    ¬ ((findMessage (messageReadHandler sampleHub aliceSess 1 5 []).hub.store 5).map
      (fun m => m.conversationId) = some 1) := by decide

/-- Claim C8 (wire payload shape) — evaluation at the failing input: the
`conversation_history` reply built by `join_conversation` delivers message
objects that spread the whole database row; they carry `conversation_id`,
`edited_at`, `is_deleted`, `created_at`, `author_email` and `author_status` in
addition to the specified (id, timestamp, content, author) shape — which the
explicitly constructed payloads of `new_message` and `message_read_updated`
do respect. -/
theorem c8_history_message_shape :
    (joinConversationHandler sampleHub aliceSess 1 []).emits =
      [⟨Target.othersInRoom (conversationRoom 1),
         EventPayload.userJoinedConversation 10 "Alice" 1⟩,
       ⟨Target.caller,
         EventPayload.conversationHistory 1
           [{ id := 1, conversationId := 1, content := "hi", timestamp := 1,
              editedAt := none, isDeleted := false, createdAt := 1,
              authorEmail := some "bob@example.com", authorStatus := "online",
              author := { id := 20, displayName := "Bob" } },
            { id := 2, conversationId := 1, content := "there", timestamp := 2,
              editedAt := none, isDeleted := false, createdAt := 2,
              authorEmail := some "bob@example.com", authorStatus := "online",
              author := { id := 20, displayName := "Bob" } }]
           (some { id := 2, timestamp := 2, content := "there",
                   author := { id := 20, displayName := "Bob" } })⟩] ∧
    historyMessageJsKeys ≠ wireMessageJsKeys ∧
    "is_deleted" ∈ historyMessageJsKeys ∧
    "author_email" ∈ historyMessageJsKeys ∧
    "conversation_id" ∈ historyMessageJsKeys ∧
    ¬ "is_deleted" ∈ wireMessageJsKeys := by decide

/-! ## Helper lemmas -/

/-- Mapping the status update over the user table commutes with looking the
user up. -/
theorem find?_map_status (l : List UserRec) (uid : Nat) (st : String) :
    (l.map (fun u => if u.id == uid then { u with status := st } else u)).find?
      (fun u => u.id == uid) =
    (l.find? (fun u => u.id == uid)).map (fun u => { u with status := st }) := by
  induction l with
  | nil => rfl
  | cons a t ih =>
    by_cases h : a.id = uid
    · subst h
      simp [List.find?_cons]
    · have hb : (a.id == uid) = false := by simpa using h
      simp only [List.map_cons, List.find?_cons]
      rw [if_neg (by simpa using h)]
      simp only [hb]
      exact ih

/-- `updateUserStatus` sets exactly the status of an existing user. -/
theorem userStatus_updateUserStatus_self (s : Store) (uid : Nat) (st : String)
    (hu : (findUser s uid).isSome = true) :
    userStatus (updateUserStatus s uid st) uid = some st := by
  rcases hfind : findUser s uid with _ | u
  · rw [hfind] at hu; simp at hu
  · unfold userStatus findUser updateUserStatus
    rw [find?_map_status]
    unfold findUser at hfind
    rw [hfind]
    simp

/-- Claim C2 — corrected version: presence is per-event, not per-count — EVERY
accepted connection of an existing user persists status "online", and EVERY
fault-free disconnect persists "offline", regardless of the user's other live
connections. -/
theorem c2_offline_on_any_disconnect (hub : Hub) (sess : SessionState) (connId : Nat)
    (hu : (findUser hub.store sess.userId).isSome = true) :
    userStatus (disconnectHandler hub sess []).hub.store sess.userId = some "offline" ∧
    userStatus (connectionHandler hub connId (some sess.userId)).hub.store sess.userId =
      some "online" := by
  constructor
  · unfold disconnectHandler takeFault
    simpa using userStatus_updateUserStatus_self hub.store sess.userId "offline" hu
  · unfold connectionHandler authenticateSocket
    dsimp only
    rcases hfind : findUser hub.store sess.userId with _ | u
    · rw [hfind] at hu; simp at hu
    · dsimp only
      have hf : hub.store.users.find? (fun v => v.id == sess.userId) = some u := hfind
      have hid : u.id = sess.userId := by simpa using List.find?_some hf
      rw [hid]
      exact userStatus_updateUserStatus_self hub.store sess.userId "online" hu

/-- Claim C2 — witness for the corrected theorem at the sample store. -/
theorem c2_offline_on_any_disconnect_witness :
    userStatus (disconnectHandler sampleHub aliceSess []).hub.store 10 = some "offline" ∧
    userStatus (connectionHandler sampleHub 7 (some 10)).hub.store 10 = some "online" :=
  c2_offline_on_any_disconnect sampleHub aliceSess 7 (by decide)

/-- Claim C4 — corrected version: when the user is not a participant of the
target conversation, every hub operation aborts with the hub state, room table
and session unchanged and with no broadcast to any other connection; but only
`join_conversation`, `send_message` and `message_read` answer the caller with
an `error` event — `typing` fails silently (logged only) and
`leave_conversation` either no-ops (conversation not active) or lets the
rejection escape uncaught with no error event. -/
theorem c4_membership_gating (hub : Hub) (sess : SessionState)
    (convId mid : Nat) (content : String) (b : Bool)
    (hnm : isUserInConversation hub.store convId sess.userId = false) :
    joinConversationHandler hub sess convId [] =
      ⟨hub, sess, [⟨Target.caller, EventPayload.errorMsg "Failed to join conversation"⟩],
        false⟩ ∧
    sendMessageHandler hub sess convId content [] =
      ⟨hub, sess, [⟨Target.caller, EventPayload.errorMsg "Failed to send message"⟩],
        false⟩ ∧
    typingHandler hub sess convId b [] = ⟨hub, sess, [], false⟩ ∧
    messageReadHandler hub sess convId mid [] =
      ⟨hub, sess, [⟨Target.caller, EventPayload.errorMsg "Failed to update read status"⟩],
        false⟩ ∧
    leaveConversationHandler hub sess convId [] =
      (if sess.currentConversation == some convId then ⟨hub, sess, [], true⟩
       else ⟨hub, sess, [], false⟩) := by
  refine ⟨?_, ?_, ?_, ?_, ?_⟩ <;>
    simp [joinConversationHandler, sendMessageHandler, typingHandler,
      messageReadHandler, leaveConversationHandler, takeFault, hnm]

/-- Claim C4 — witness for the corrected theorem: Zed (user 99) is not a
member of conversation 1. -/
theorem c4_membership_gating_witness :
    joinConversationHandler sampleHub zedSess 1 [] =
      ⟨sampleHub, zedSess,
        [⟨Target.caller, EventPayload.errorMsg "Failed to join conversation"⟩], false⟩ ∧
    sendMessageHandler sampleHub zedSess 1 "hey" [] =
      ⟨sampleHub, zedSess,
        [⟨Target.caller, EventPayload.errorMsg "Failed to send message"⟩], false⟩ ∧
    typingHandler sampleHub zedSess 1 true [] = ⟨sampleHub, zedSess, [], false⟩ ∧
    messageReadHandler sampleHub zedSess 1 1 [] =
      ⟨sampleHub, zedSess,
        [⟨Target.caller, EventPayload.errorMsg "Failed to update read status"⟩], false⟩ ∧
    leaveConversationHandler sampleHub zedSess 1 [] =
      (if zedSess.currentConversation == some 1 then ⟨sampleHub, zedSess, [], true⟩
       else ⟨sampleHub, zedSess, [], false⟩) :=
  c4_membership_gating sampleHub zedSess 1 1 "hey" true (by decide)

/-- Claim C3 — corrected version: `join_conversation`, `send_message`,
`typing` and `message_read` catch every store failure (no rejection ever
escapes them, for any fault schedule); a failure of the first store call
produces exactly one `error` event addressed to the caller alone
(`typing`: no event at all); `leave_conversation` does NOT catch — with the
conversation active, a store failure escapes with no error event.  Moreover a
store failure occurring later in a handler can follow an already delivered
broadcast: `join_conversation` broadcasts `user_joined_conversation` before
the history fetch that may still fail, and `send_message` broadcasts
`new_message` before the participant/unread queries that may still fail. -/
theorem c3_failure_semantics (hub : Hub) (sess : SessionState)
    (convId mid : Nat) (content : String) (b : Bool) (sched : List Bool)
    (hmem : isUserInConversation hub.store convId sess.userId = true)
    (hconv : hub.store.conversations.contains convId = true)
    (hauth : (findUser hub.store sess.userId).isSome = true) :
    (joinConversationHandler hub sess convId sched).unhandled = false ∧
    (sendMessageHandler hub sess convId content sched).unhandled = false ∧
    (typingHandler hub sess convId b sched).unhandled = false ∧
    (messageReadHandler hub sess convId mid sched).unhandled = false ∧
    joinConversationHandler hub sess convId (true :: sched) =
      ⟨hub, sess, [⟨Target.caller, EventPayload.errorMsg "Failed to join conversation"⟩],
        false⟩ ∧
    sendMessageHandler hub sess convId content (true :: sched) =
      ⟨hub, sess, [⟨Target.caller, EventPayload.errorMsg "Failed to send message"⟩],
        false⟩ ∧
    messageReadHandler hub sess convId mid (true :: sched) =
      ⟨hub, sess, [⟨Target.caller, EventPayload.errorMsg "Failed to update read status"⟩],
        false⟩ ∧
    typingHandler hub sess convId b (true :: sched) = ⟨hub, sess, [], false⟩ ∧
    leaveConversationHandler hub sess convId (true :: sched) =
      (if sess.currentConversation == some convId then ⟨hub, sess, [], true⟩
       else ⟨hub, sess, [], false⟩) ∧
    (joinConversationHandler hub sess convId [false, true]).emits =
      [⟨Target.othersInRoom (conversationRoom convId),
         EventPayload.userJoinedConversation sess.userId sess.displayName convId⟩,
       ⟨Target.caller, EventPayload.errorMsg "Failed to join conversation"⟩] ∧
    (sendMessageHandler hub sess convId content [false, false, true]).emits =
      [⟨Target.allInRoom (conversationRoom convId),
         EventPayload.newMessage convId
           { id := hub.store.nextMessageId, timestamp := hub.store.clock,
             content := content,
             author := { id := sess.userId, displayName := sess.displayName } }⟩,
       ⟨Target.caller, EventPayload.errorMsg "Failed to send message"⟩] := by
  refine ⟨?_, ?_, ?_, ?_, ?_, ?_, ?_, ?_, ?_, ?_, ?_⟩
  · simp only [joinConversationHandler, takeFault]
    repeat' split <;> try rfl
  · simp only [sendMessageHandler, takeFault]
    repeat' split <;> try rfl
  · simp only [typingHandler, takeFault]
    repeat' split <;> try rfl
  · simp only [messageReadHandler, takeFault]
    repeat' split <;> try rfl
  · simp [joinConversationHandler, takeFault]
  · simp [sendMessageHandler, takeFault]
  · simp [messageReadHandler, takeFault]
  · simp [typingHandler, takeFault]
  · simp [leaveConversationHandler, takeFault]
  · simp [joinConversationHandler, takeFault, hmem]
  · have hconv2 : convId ∈ hub.store.conversations := by simpa using hconv
    simp [sendMessageHandler, takeFault, hmem, createMessage, hconv2, hauth]

/-- Claim C3 — witness for the corrected theorem: Alice is a member of
conversation 1 of the sample store, which exists and in which she is
registered. -/
theorem c3_failure_semantics_witness :
    (joinConversationHandler sampleHub aliceSess 1 []).unhandled = false ∧
    (sendMessageHandler sampleHub aliceSess 1 "hi there" []).unhandled = false ∧
    (typingHandler sampleHub aliceSess 1 true []).unhandled = false ∧
    (messageReadHandler sampleHub aliceSess 1 1 []).unhandled = false ∧
    joinConversationHandler sampleHub aliceSess 1 (true :: []) =
      ⟨sampleHub, aliceSess,
        [⟨Target.caller, EventPayload.errorMsg "Failed to join conversation"⟩], false⟩ ∧
    sendMessageHandler sampleHub aliceSess 1 "hi there" (true :: []) =
      ⟨sampleHub, aliceSess,
        [⟨Target.caller, EventPayload.errorMsg "Failed to send message"⟩], false⟩ ∧
    messageReadHandler sampleHub aliceSess 1 1 (true :: []) =
      ⟨sampleHub, aliceSess,
        [⟨Target.caller, EventPayload.errorMsg "Failed to update read status"⟩], false⟩ ∧
    typingHandler sampleHub aliceSess 1 true (true :: []) =
      ⟨sampleHub, aliceSess, [], false⟩ ∧
    leaveConversationHandler sampleHub aliceSess 1 (true :: []) =
      (if aliceSess.currentConversation == some 1 then ⟨sampleHub, aliceSess, [], true⟩
       else ⟨sampleHub, aliceSess, [], false⟩) ∧
    (joinConversationHandler sampleHub aliceSess 1 [false, true]).emits =
      [⟨Target.othersInRoom (conversationRoom 1),
         EventPayload.userJoinedConversation 10 "Alice" 1⟩,
       ⟨Target.caller, EventPayload.errorMsg "Failed to join conversation"⟩] ∧
    (sendMessageHandler sampleHub aliceSess 1 "hi there" [false, false, true]).emits =
      [⟨Target.allInRoom (conversationRoom 1),
         EventPayload.newMessage 1
           { id := 6, timestamp := 10, content := "hi there",
             author := { id := 10, displayName := "Alice" } }⟩,
       ⟨Target.caller, EventPayload.errorMsg "Failed to send message"⟩] :=
  c3_failure_semantics sampleHub aliceSess 1 1 "hi there" true []
    (by decide) (by decide) (by decide)

/-- `setLastRead` never touches the conversation id of a row. -/
theorem setLastRead_conversationId (c u m : Nat) (p : ParticipantRec) :
    (setLastRead c u m p).conversationId = p.conversationId := by
  unfold setLastRead; split <;> rfl

/-- `setLastRead` never touches the user id of a row. -/
theorem setLastRead_userId (c u m : Nat) (p : ParticipantRec) :
    (setLastRead c u m p).userId = p.userId := by
  unfold setLastRead; split <;> rfl

/-- The pointer write is idempotent at row level. -/
theorem setLastRead_idem (c u m : Nat) (p : ParticipantRec) :
    setLastRead c u m (setLastRead c u m p) = setLastRead c u m p := by
  unfold setLastRead
  by_cases h : (p.conversationId == c && p.userId == u) = true
  · simp [h]
  · simp [h]

/-- The pointer write is idempotent at table level. -/
theorem map_setLastRead_idem (l : List ParticipantRec) (c u m : Nat) :
    (l.map (setLastRead c u m)).map (setLastRead c u m) = l.map (setLastRead c u m) := by
  rw [List.map_map]
  have h : setLastRead c u m ∘ setLastRead c u m = setLastRead c u m :=
    funext (setLastRead_idem c u m)
  rw [h]

/-- Membership checks are unaffected by pointer writes. -/
theorem isUserInConversation_map_setLastRead (s : Store) (c u m cv uv : Nat) :
    isUserInConversation
        { s with participants := s.participants.map (setLastRead c u m) } cv uv =
      isUserInConversation s cv uv := by
  unfold isUserInConversation
  dsimp only
  rw [List.any_map]
  congr 1
  funext q
  simp [Function.comp, setLastRead_conversationId, setLastRead_userId]

/-- After mapping the pointer write over the table, every row with the written
key holds the written pointer. -/
theorem mem_map_setLastRead (l : List ParticipantRec) (c u m : Nat) :
    ∀ p ∈ l.map (setLastRead c u m), p.conversationId = c → p.userId = u →
      p.lastReadMessageId = some m := by
  intro p hp hc hu
  rcases List.mem_map.mp hp with ⟨q, _, rfl⟩
  by_cases h : (q.conversationId == c && q.userId == u) = true
  · unfold setLastRead
    rw [if_pos h]
  · rw [setLastRead_conversationId] at hc
    rw [setLastRead_userId] at hu
    exact absurd (by simp [hc, hu]) h

/-- The chat variant of `updateLastReadMessage` under a successful membership
check and an existing message: it overwrites the pointer of every matching row
and returns the resolved message. -/
theorem updateLastReadResolved_ok (s : Store) (convId uid mid : Nat)
    (hmem : isUserInConversation s convId uid = true)
    (hmsg : (findMessage s mid).isSome = true) :
    updateLastReadMessageResolved s convId uid mid =
      Except.ok
        ({ s with participants := s.participants.map (setLastRead convId uid mid) },
          getMessageById s mid) := by
  unfold updateLastReadMessageResolved updateLastReadMessage
  have hany : s.participants.any (fun p => p.conversationId == convId && p.userId == uid)
      = true := hmem
  have hne : ¬ findMessage s mid = none := by
    intro h; rw [h] at hmsg; simp at hmsg
  simp [hany, hmsg]
  rw [if_neg hne]
  rfl

/-- The `message_read` handler under a passing membership check and an
existing message id: the pointer of every matching participant row is
overwritten, and when the message resolves with an author the
reply/broadcast/meta triple is emitted. -/
theorem messageReadHandler_ok (hub : Hub) (sess : SessionState) (convId mid : Nat)
    (hmem : isUserInConversation hub.store convId sess.userId = true)
    (hmsg : (findMessage hub.store mid).isSome = true) :
    messageReadHandler hub sess convId mid [] =
      match getMessageById hub.store mid with
      | none =>
        ⟨⟨{ hub.store with
            participants :=
              hub.store.participants.map (setLastRead convId sess.userId mid) },
          hub.rooms⟩, sess, [], false⟩
      | some m =>
        ⟨⟨{ hub.store with
            participants :=
              hub.store.participants.map (setLastRead convId sess.userId mid) },
          hub.rooms⟩, sess,
          [⟨Target.caller, EventPayload.messageReadUpdated (formatResolvedMessage m)⟩,
           ⟨Target.othersInRoom (conversationRoom convId),
             EventPayload.userReadMessage convId mid sess.userId⟩,
           ⟨Target.allInRoom (userRoom sess.userId),
             EventPayload.conversationMetaUpdated convId (formatResolvedMessage m) 0⟩],
          false⟩ := by
  have hup := updateLastReadResolved_ok hub.store convId sess.userId mid hmem hmsg
  rcases hres : getMessageById hub.store mid with _ | m <;>
    simp [messageReadHandler, takeFault, hmem, hup, hres]

/-- Claim C6 — corrected version: the `message_read` pointer write is
idempotent — repeating the same messageId leaves the handler result (store,
session, emitted `lastReadMessage` replies, hence every unread count computed
between the two calls) unchanged — but it is an unconditional overwrite: after
the call, every participant row for (conversation, caller) holds exactly the
given messageId whatever the previous pointer, so an older id does revert
progress, as the counterexample shows. -/
theorem c6_read_idempotent_overwrite (hub : Hub) (sess : SessionState)
    (convId mid : Nat)
    (hmem : isUserInConversation hub.store convId sess.userId = true)
    (hmsg : (findMessage hub.store mid).isSome = true) :
    messageReadHandler (messageReadHandler hub sess convId mid []).hub
        (messageReadHandler hub sess convId mid []).sess convId mid [] =
      messageReadHandler hub sess convId mid [] ∧
    (∀ p ∈ (messageReadHandler hub sess convId mid []).hub.store.participants,
      p.conversationId = convId → p.userId = sess.userId →
        p.lastReadMessageId = some mid) := by
  have h1 := messageReadHandler_ok hub sess convId mid hmem hmsg
  have hmem1 : isUserInConversation
      { hub.store with
        participants := hub.store.participants.map (setLastRead convId sess.userId mid) }
      convId sess.userId = true := by
    rw [isUserInConversation_map_setLastRead]; exact hmem
  have hmsg1 : (findMessage
      { hub.store with
        participants := hub.store.participants.map (setLastRead convId sess.userId mid) }
      mid).isSome = true := hmsg
  have h2 := messageReadHandler_ok
    ⟨{ hub.store with
        participants := hub.store.participants.map (setLastRead convId sess.userId mid) },
      hub.rooms⟩ sess convId mid hmem1 hmsg1
  have hres1 : getMessageById
      { hub.store with
        participants := hub.store.participants.map (setLastRead convId sess.userId mid) }
      mid = getMessageById hub.store mid := rfl
  constructor
  · rcases hres : getMessageById hub.store mid with _ | m <;>
      rw [hres] at h1 <;>
      rw [hres1, hres] at h2 <;>
      simp only [h1] <;>
      rw [h2] <;>
      simp [map_setLastRead_idem] <;>
      (intro a _; exact setLastRead_idem convId sess.userId mid a)
  · rw [h1]
    rcases hres : getMessageById hub.store mid with _ | m <;>
      exact mem_map_setLastRead hub.store.participants convId sess.userId mid

/-- Claim C6 — witness: Alice re-reads message 2 of conversation 1. -/
theorem c6_read_idempotent_overwrite_witness :
    messageReadHandler (messageReadHandler sampleHub aliceSess 1 2 []).hub
        (messageReadHandler sampleHub aliceSess 1 2 []).sess 1 2 [] =
      messageReadHandler sampleHub aliceSess 1 2 [] ∧
    (∀ p ∈ (messageReadHandler sampleHub aliceSess 1 2 []).hub.store.participants,
      p.conversationId = 1 → p.userId = 10 → p.lastReadMessageId = some 2) :=
  c6_read_idempotent_overwrite sampleHub aliceSess 1 2 (by decide) (by decide)

/-- Claim C7 — corrected version: `message_read` stores ANY existing
messageId as the caller's pointer for the target conversation — neither the
handler nor `updateLastReadMessage` nor the schema checks that the message
belongs to that conversation, and the message table is left unchanged, so a
pointer into a different conversation results whenever `mid` lives
elsewhere (as the counterexample shows). -/
theorem c7_pointer_not_conversation_checked (hub : Hub) (sess : SessionState)
    (convId mid : Nat) (m : MessageRec)
    (hmem : isUserInConversation hub.store convId sess.userId = true)
    (hm : findMessage hub.store mid = some m) :
    findMessage (messageReadHandler hub sess convId mid []).hub.store mid = some m ∧
    (∀ p ∈ (messageReadHandler hub sess convId mid []).hub.store.participants,
      p.conversationId = convId → p.userId = sess.userId →
        p.lastReadMessageId = some mid) := by
  have hmsg : (findMessage hub.store mid).isSome = true := by rw [hm]; rfl
  have h1 := messageReadHandler_ok hub sess convId mid hmem hmsg
  rw [h1]
  rcases hres : getMessageById hub.store mid with _ | mm <;>
    exact ⟨hm, mem_map_setLastRead hub.store.participants convId sess.userId mid⟩

/-- Claim C7 — witness: Alice marks message 5 (which lives in conversation 2)
as read in conversation 1. -/
theorem c7_pointer_not_conversation_checked_witness :
    findMessage (messageReadHandler sampleHub aliceSess 1 5 []).hub.store 5 =
      some msg5 ∧
    (∀ p ∈ (messageReadHandler sampleHub aliceSess 1 5 []).hub.store.participants,
      p.conversationId = 1 → p.userId = 10 → p.lastReadMessageId = some 5) :=
  c7_pointer_not_conversation_checked sampleHub aliceSess 1 5 msg5
    (by decide) (by decide)

/-- The `send_message` handler under a passing membership check, an existing
conversation and an existing author, with no store fault: the message is
persisted with database-assigned id and timestamps, `new_message` goes to the
whole conversation room, and one `conversation_meta_updated` goes to each
participant's user room, the sender's with count forced to 0. -/
theorem sendMessageHandler_ok (hub : Hub) (sess : SessionState) (convId : Nat)
    (content : String)
    (hmem : isUserInConversation hub.store convId sess.userId = true)
    (hconv : hub.store.conversations.contains convId = true)
    (hauth : (findUser hub.store sess.userId).isSome = true) :
    sendMessageHandler hub sess convId content [] =
      (let m : MessageRec :=
        { id := hub.store.nextMessageId, conversationId := convId,
          authorId := sess.userId, content := content, timestamp := hub.store.clock,
          editedAt := none, isDeleted := false, createdAt := hub.store.clock }
      let store1 : Store :=
        { hub.store with
          messages := hub.store.messages ++ [m],
          nextMessageId := hub.store.nextMessageId + 1,
          clock := hub.store.clock + 1 }
      let fm : MessagePayload :=
        { id := m.id, timestamp := m.createdAt, content := m.content,
          author := { id := sess.userId, displayName := sess.displayName } }
      let pids := (getParticipantsForConversation store1 convId).map (fun p => p.userId)
      let counts := getUnreadCountForConversation store1 convId pids
      ⟨⟨store1, hub.rooms⟩, sess,
        ⟨Target.allInRoom (conversationRoom convId), EventPayload.newMessage convId fm⟩ ::
          pids.map (fun pid =>
            (⟨Target.allInRoom (userRoom pid),
              EventPayload.conversationMetaUpdated convId fm
                (if pid == sess.userId then 0 else lookupCount counts pid)⟩ : Emit)),
        false⟩) := by
  have hconv2 : convId ∈ hub.store.conversations := by simpa using hconv
  simp [sendMessageHandler, takeFault, hmem, createMessage, hconv2, hauth]

/-- A user who is a participant of the conversation and exists in the user
table appears among the participant ids the hub fans the meta update out
to. -/
theorem sender_mem_participantIds (s : Store) (convId uid : Nat)
    (hmem : isUserInConversation s convId uid = true)
    (hauth : (findUser s uid).isSome = true) :
    uid ∈ (getParticipantsForConversation s convId).map (fun p => p.userId) := by
  unfold isUserInConversation at hmem
  rcases List.any_eq_true.mp hmem with ⟨p, hp, hcond⟩
  have hc : p.conversationId = convId := by
    have := (Bool.and_eq_true _ _).mp hcond
    simpa using this.1
  have hu : p.userId = uid := by
    have := (Bool.and_eq_true _ _).mp hcond
    simpa using this.2
  refine List.mem_map.mpr ⟨p, ?_, hu⟩
  unfold getParticipantsForConversation
  refine List.mem_filter.mpr ⟨hp, ?_⟩
  rw [hu]
  simp [hc, hauth]

/-- Claim C9 — every `conversation_meta_updated` that a successful
`send_message` pushes to the sender's own notification room carries
`unreadCount = 0`, whatever the store-computed counts, and such a push is
actually made. -/
theorem c9_sender_unread_zero (hub : Hub) (sess : SessionState) (convId : Nat)
    (content : String)
    (hmem : isUserInConversation hub.store convId sess.userId = true)
    (hconv : hub.store.conversations.contains convId = true)
    (hauth : (findUser hub.store sess.userId).isSome = true) :
    (∀ e ∈ (sendMessageHandler hub sess convId content []).emits,
      e.target = Target.allInRoom (userRoom sess.userId) →
      ∀ c lm n, e.payload = EventPayload.conversationMetaUpdated c lm n → n = 0) ∧
    (∃ lm, (⟨Target.allInRoom (userRoom sess.userId),
        EventPayload.conversationMetaUpdated convId lm 0⟩ : Emit) ∈
          (sendMessageHandler hub sess convId content []).emits) := by
  rw [sendMessageHandler_ok hub sess convId content hmem hconv hauth]
  dsimp only
  constructor
  · intro e he ht c lm n hp
    rcases List.mem_cons.mp he with rfl | hmap
    · simp [conversationRoom, userRoom] at ht
    · rcases List.mem_map.mp hmap with ⟨pid, _, rfl⟩
      simp only [userRoom, Target.allInRoom.injEq, Room.user.injEq] at ht
      subst ht
      simp only [EventPayload.conversationMetaUpdated.injEq] at hp
      rcases hp with ⟨_, _, hn⟩
      simp at hn
      omega
  · have hsmem : sess.userId ∈
        (getParticipantsForConversation
          { hub.store with
            messages := hub.store.messages ++
              [{ id := hub.store.nextMessageId, conversationId := convId,
                 authorId := sess.userId, content := content,
                 timestamp := hub.store.clock, editedAt := none, isDeleted := false,
                 createdAt := hub.store.clock }],
            nextMessageId := hub.store.nextMessageId + 1,
            clock := hub.store.clock + 1 } convId).map (fun p => p.userId) := by
      have hmem1 : isUserInConversation
          { hub.store with
            messages := hub.store.messages ++
              [{ id := hub.store.nextMessageId, conversationId := convId,
                 authorId := sess.userId, content := content,
                 timestamp := hub.store.clock, editedAt := none, isDeleted := false,
                 createdAt := hub.store.clock }],
            nextMessageId := hub.store.nextMessageId + 1,
            clock := hub.store.clock + 1 } convId sess.userId = true := hmem
      have hauth1 : (findUser
          { hub.store with
            messages := hub.store.messages ++
              [{ id := hub.store.nextMessageId, conversationId := convId,
                 authorId := sess.userId, content := content,
                 timestamp := hub.store.clock, editedAt := none, isDeleted := false,
                 createdAt := hub.store.clock }],
            nextMessageId := hub.store.nextMessageId + 1,
            clock := hub.store.clock + 1 } sess.userId).isSome = true := hauth
      exact sender_mem_participantIds _ convId sess.userId hmem1 hauth1
    refine ⟨{ id := hub.store.nextMessageId, timestamp := hub.store.clock,
              content := content,
              author := { id := sess.userId, displayName := sess.displayName } }, ?_⟩
    apply List.mem_cons_of_mem
    apply List.mem_map.mpr
    refine ⟨sess.userId, hsmem, ?_⟩
    simp

/-- Claim C9 — witness: Alice sends "yo" into conversation 1. -/
theorem c9_sender_unread_zero_witness :
    (∀ e ∈ (sendMessageHandler sampleHub aliceSess 1 "yo" []).emits,
      e.target = Target.allInRoom (userRoom 10) →
      ∀ c lm n, e.payload = EventPayload.conversationMetaUpdated c lm n → n = 0) ∧
    (∃ lm, (⟨Target.allInRoom (userRoom 10),
        EventPayload.conversationMetaUpdated 1 lm 0⟩ : Emit) ∈
          (sendMessageHandler sampleHub aliceSess 1 "yo" []).emits) :=
  c9_sender_unread_zero sampleHub aliceSess 1 "yo" (by decide) (by decide) (by decide)

/-- Claim C10 — the socket send path applies no content validation: for EVERY
string (empty, overlong, untrimmed — the HTTP path's 1..2000 trimmed rule is
absent here), `send_message` by a participant persists a message with exactly
that content and broadcasts it in `new_message` to the conversation room. -/
theorem c10_no_content_validation (hub : Hub) (sess : SessionState) (convId : Nat)
    (content : String)
    (hmem : isUserInConversation hub.store convId sess.userId = true)
    (hconv : hub.store.conversations.contains convId = true)
    (hauth : (findUser hub.store sess.userId).isSome = true) :
    ∃ m : MessageRec,
      (sendMessageHandler hub sess convId content []).hub.store.messages =
        hub.store.messages ++ [m] ∧
      m.content = content ∧ m.conversationId = convId ∧ m.authorId = sess.userId ∧
      (⟨Target.allInRoom (conversationRoom convId),
        EventPayload.newMessage convId
          { id := m.id, timestamp := m.createdAt, content := content,
            author := { id := sess.userId, displayName := sess.displayName } }⟩ : Emit) ∈
        (sendMessageHandler hub sess convId content []).emits := by
  rw [sendMessageHandler_ok hub sess convId content hmem hconv hauth]
  exact ⟨_, rfl, rfl, rfl, rfl, List.mem_cons_self _ _⟩

/-- Claim C10 — witness: Alice sends the empty string (rejected by the HTTP
validation schema, accepted and persisted verbatim by the socket path). -/
theorem c10_no_content_validation_witness :
    ∃ m : MessageRec,
      (sendMessageHandler sampleHub aliceSess 1 "" []).hub.store.messages =
        sampleStore.messages ++ [m] ∧
      m.content = "" ∧ m.conversationId = 1 ∧ m.authorId = 10 ∧
      (⟨Target.allInRoom (conversationRoom 1),
        EventPayload.newMessage 1
          { id := m.id, timestamp := m.createdAt, content := "",
            author := { id := 10, displayName := "Alice" } }⟩ : Emit) ∈
        (sendMessageHandler sampleHub aliceSess 1 "" []).emits :=
  c10_no_content_validation sampleHub aliceSess 1 "" (by decide) (by decide) (by decide)

/-- Locating the unread-count row of a participant in the grouped query
result: under the primary key, the first (and only) entry for the user's id
carries that participant's count. -/
theorem find?_unread_base (s : Store) (convId : Nat) (userIds : List Nat)
    (l : List ParticipantRec) (u : Nat) (p : ParticipantRec)
    (hnd : noDupKeys l = true) (hp : p ∈ l) (hc : p.conversationId = convId)
    (hu : p.userId = u) (hreq : userIds.contains u = true) :
    ((l.filter (fun q => q.conversationId == convId && userIds.contains q.userId)).map
        (fun q => (q.userId, unreadCountFor s q))).find? (fun kv => kv.fst == u) =
      some (u, unreadCountFor s p) := by
  induction l with
  | nil => cases hp
  | cons a t ih =>
    have hnd2 : noDupKeys t = true := by
      unfold noDupKeys at hnd
      exact ((Bool.and_eq_true _ _).mp hnd).2
    have hnodup :
        (t.any (fun q => q.conversationId == a.conversationId && q.userId == a.userId))
          = false := by
      unfold noDupKeys at hnd
      have h := ((Bool.and_eq_true _ _).mp hnd).1
      simpa using h
    rcases List.mem_cons.mp hp with rfl | hpt
    · have hreqm : u ∈ userIds := by simpa using hreq
      have hfa : (p.conversationId == convId && userIds.contains p.userId) = true := by
        simp [hc, hu, hreqm]
      simp only [List.filter_cons, hfa, if_true, List.map_cons, List.find?_cons]
      have : (p.userId == u) = true := by simp [hu]
      simp [this, hu]
    · by_cases hfa : (a.conversationId == convId && userIds.contains a.userId) = true
      · by_cases hau : a.userId = u
        · exfalso
          have hacv : a.conversationId = convId := by
            have h := ((Bool.and_eq_true _ _).mp hfa).1
            simpa using h
          have : t.any (fun q =>
              q.conversationId == a.conversationId && q.userId == a.userId) = true :=
            List.any_eq_true.mpr ⟨p, hpt, by simp [hc, hu, hacv, hau]⟩
          rw [this] at hnodup
          cases hnodup
        · have hne : (a.userId == u) = false := by simpa using hau
          simp only [List.filter_cons, hfa, if_true, List.map_cons, List.find?_cons, hne]
          exact ih hnd2 hpt
      · simp only [List.filter_cons, hfa, if_false]
        exact ih hnd2 hpt

/-- Every requested user id appears in the unread-count map. -/
theorem unread_map_mem (s : Store) (convId : Nat) (userIds : List Nat) (u : Nat)
    (hreq : u ∈ userIds) :
    (getUnreadCountForConversation s convId userIds).any (fun kv => kv.fst == u)
      = true := by
  unfold getUnreadCountForConversation
  have hne : userIds.isEmpty = false := by
    cases userIds with
    | nil => cases hreq
    | cons a t => rfl
  rw [if_neg (by simp [hne])]
  dsimp only
  rw [List.any_append]
  by_cases hb : ((s.participants.filter
        (fun q => q.conversationId == convId && userIds.contains q.userId)).map
      (fun q => (q.userId, unreadCountFor s q))).any (fun kv => kv.fst == u) = true
  · rw [hb]; rfl
  · have hfill : (u, 0) ∈ (userIds.filter (fun v =>
        !(((s.participants.filter
            (fun q => q.conversationId == convId && userIds.contains q.userId)).map
          (fun q => (q.userId, unreadCountFor s q))).any (fun kv => kv.fst == v)))).map
        (fun v => (v, 0)) := by
      refine List.mem_map.mpr ⟨u, List.mem_filter.mpr ⟨hreq, ?_⟩, rfl⟩
      cases hx : ((s.participants.filter
          (fun q => q.conversationId == convId && userIds.contains q.userId)).map
        (fun q => (q.userId, unreadCountFor s q))).any (fun kv => kv.fst == u) with
      | true => exact absurd hx hb
      | false => rfl
    have : ((userIds.filter (fun v =>
        !(((s.participants.filter
            (fun q => q.conversationId == convId && userIds.contains q.userId)).map
          (fun q => (q.userId, unreadCountFor s q))).any (fun kv => kv.fst == v)))).map
        (fun v => (v, 0))).any (fun kv => kv.fst == u) = true :=
      List.any_eq_true.mpr ⟨(u, 0), hfill, by simp⟩
    rw [this]
    simp

/-- The embedded `COUNT(CASE ...)` of one participant row equals the spec's
definition of the unread count, provided the row's pointer resolves. -/
theorem unreadCountFor_eq_spec (s : Store) (convId u : Nat) (p : ParticipantRec)
    (hc : p.conversationId = convId) (hu : p.userId = u)
    (hres : ∀ pid, p.lastReadMessageId = some pid →
      (findMessage s pid).isSome = true) :
    unreadCountFor s p = specUnreadCount s convId u p.lastReadMessageId := by
  unfold unreadCountFor specUnreadCount unreadCond
  rcases hptr : p.lastReadMessageId with _ | pid
  · dsimp only
    congr 1
    apply List.filter_congr
    intro m _
    simp [hc, hu]
  · have hsome := hres pid hptr
    rcases hfm : findMessage s pid with _ | pm
    · rw [hfm] at hsome
      simp at hsome
    · simp only [hfm]
      congr 1
      apply List.filter_congr
      intro m _
      simp [hc, hu]

/-- Claim C5 — for every requested user who is a participant of the
conversation (with a resolvable read pointer, as the schema's foreign key
guarantees for real stores), `getUnreadCountForConversation` returns exactly
the count the spec defines — non-deleted messages of the conversation not
authored by the user and strictly newer than the pointer's message (all of
them when the pointer is null) — and every requested user id appears in the
returned map. -/
theorem c5_unread_count (s : Store) (convId : Nat) (userIds : List Nat) (u : Nat)
    (p : ParticipantRec)
    (hnd : noDupKeys s.participants = true)
    (hp : p ∈ s.participants) (hc : p.conversationId = convId) (hu : p.userId = u)
    (hreq : u ∈ userIds)
    (hres : ∀ pid, p.lastReadMessageId = some pid →
      (findMessage s pid).isSome = true) :
    lookupCount (getUnreadCountForConversation s convId userIds) u =
      specUnreadCount s convId u p.lastReadMessageId ∧
    (∀ v ∈ userIds,
      (getUnreadCountForConversation s convId userIds).any (fun kv => kv.fst == v)
        = true) := by
  have hreqb : userIds.contains u = true := by simpa using hreq
  refine ⟨?_, fun v hv => unread_map_mem s convId userIds v hv⟩
  unfold lookupCount getUnreadCountForConversation
  have hne : userIds.isEmpty = false := by
    cases userIds with
    | nil => cases hreq
    | cons a t => rfl
  rw [if_neg (by simp [hne])]
  dsimp only
  rw [List.find?_append,
    find?_unread_base s convId userIds s.participants u p hnd hp hc hu hreqb]
  exact unreadCountFor_eq_spec s convId u p hc hu hres

/-- Claim C5 — witness: the sample store, conversation 1, requested users
Alice, Bob and Zed, checked for Alice (pointer at message 2). -/
theorem c5_unread_count_witness :
    lookupCount (getUnreadCountForConversation sampleStore 1 [10, 20, 99]) 10 =
      specUnreadCount sampleStore 1 10 (some 2) ∧
    (∀ v ∈ [10, 20, 99],
      (getUnreadCountForConversation sampleStore 1 [10, 20, 99]).any
        (fun kv => kv.fst == v) = true) :=
  c5_unread_count sampleStore 1 [10, 20, 99] 10
    { conversationId := 1, userId := 10, lastReadMessageId := some 2, isAdmin := true }
    (by decide) (by decide) (by decide) (by decide) (by decide)
    (by intro pid h; cases h; decide)

end ChicaChica
